import Mathlib

/-!
Shallow embedding of the ledenet-ufo protocol and connection-lifecycle
engine, translated from the repository sources, together with theorems
settling the specification claims.

Sources embedded:
- src/lufo-api/src/TcpClient.js  (frame codec, status decoder, TCP state
  machine, status cache, control operations)
- src/src/TcpCustoms.js          (custom-function speed flip, and the UDP
  discovery plus AT-command assembly appended to that file)

Bytes are modelled as Nat (each produced by writeUInt8, hence 0-255 where
it matters); JS numbers that can go negative are modelled as Int.
-/

/- ===================== FrameCodec (src/lufo-api/src/TcpClient.js) ===================== -/

/-- Fixed first byte of every status frame (const statusHeader = 0x81). -/
def statusHeader : Nat := 0x81

/-- Length in bytes of a status response frame (const statusResponseSize = 14). -/
def statusResponseSize : Nat := 14

/-- The fixed 4-byte status request buffer (const statusRequest). -/
def statusRequest : List Nat := [0x81, 0x8A, 0x8B, 0x96]

/-- The fixed 4-byte power-on buffer (const powerOn). -/
def powerOn : List Nat := [0x71, 0x23, 0x0F, 0xA3]

/-- The fixed 4-byte power-off buffer (const powerOff). -/
def powerOff : List Nat := [0x71, 0x24, 0x0F, 0xA4]

/-- Maximum built-in function speed (const maxBuiltinSpeed = 100). -/
def maxBuiltinSpeed : Nat := 100

/-- Maximum custom function speed (const maxCustomSpeed = 30). -/
def maxCustomSpeed : Nat := 30

/-- Maximum number of custom steps (const maxCustomSteps = 16). -/
def maxCustomSteps : Nat := 16

/-- Clamps the input to 0-255 inclusive, for use as an RGBW byte
(function _clampRGBW, which is lodash clamp(value, 0, 255)). -/
def clampRGBW (value : Int) : Nat := (min (max value 0) 255).toNat

/-- Function _prepareBytes: expands the buffer by 2 and fills the last two
bytes with the "local" flag 0x0f and a checksum, the checksum being the sum
of all bytes of the expanded buffer (checksum slot zeroed) modulo 0x100. -/
def prepareBytes (buf : List Nat) : List Nat :=
  let withFlag := buf ++ [0x0f, 0]
  let checksum := (withFlag.foldl (· + ·) 0) % 0x100
  buf ++ [0x0f, checksum]

/-- Function _builtinFlipSpeed: clamp to 0-100 then reflect,
Math.abs(clamp(speed, 0, 100) - 100). -/
def builtinFlipSpeed (speed : Int) : Nat :=
  ((min (max speed 0) (maxBuiltinSpeed : Int)) - (maxBuiltinSpeed : Int)).natAbs

/-- Function _customFlipSpeed: clamp to 0-30 then reflect,
Math.abs(clamp(speed, 0, 30) - 30). -/
def customFlipSpeed (speed : Int) : Nat :=
  ((min (max speed 0) (maxCustomSpeed : Int)) - (maxCustomSpeed : Int)).natAbs

/-- The built-in function name-to-id map (const builtinFunctionMap), in its
insertion order. -/
def builtinFunctionMap : List (String × Nat) :=
  [("sevenColorCrossFade", 0x25),
   ("redGradualChange", 0x26),
   ("greenGradualChange", 0x27),
   ("blueGradualChange", 0x28),
   ("yellowGradualChange", 0x29),
   ("cyanGradualChange", 0x2A),
   ("purpleGradualChange", 0x2B),
   ("whiteGradualChange", 0x2C),
   ("redGreenCrossFade", 0x2D),
   ("redBlueCrossFade", 0x2E),
   ("greenBlueCrossFade", 0x2F),
   ("sevenColorStrobeFlash", 0x30),
   ("redStrobeFlash", 0x31),
   ("greenStrobeFlash", 0x32),
   ("blueStrobeFlash", 0x33),
   ("yellowStrobeFlash", 0x34),
   ("cyanStrobeFlash", 0x35),
   ("purpleStrobeFlash", 0x36),
   ("whiteStrobeFlash", 0x37),
   ("sevenColorJumpingChange", 0x38),
   ("noFunction", 0x61),
   ("postReset", 0x63)]

/-- Map.get(name) on builtinFunctionMap, as used by builtin(). -/
def builtinFunctionId (name : String) : Option Nat :=
  (builtinFunctionMap.find? (fun p => p.1 = name)).map Prod.snd

/-- The reverse lookup performed by the status decoder: iterate the map in
insertion order and keep the first name whose id equals the mode byte. -/
def builtinNameForId (modeByte : Nat) : Option String :=
  (builtinFunctionMap.find? (fun p => p.2 = modeByte)).map Prod.fst

/-- JS String.prototype.startsWith, modelled on the character lists
underlying the strings. -/
def jsStartsWith (s pre : String) : Bool := pre.data.isPrefixOf s.data

/-- Decoded device state (type UfoStatus of src/lufo-api/src/TcpClient.js).
The source field name on clashes with notation here, so it is called isOn. -/
structure UfoStatus where
  raw : List Nat
  isOn : Bool
  mode : String
  speed : Option Nat
  red : Nat
  green : Nat
  blue : Nat
  white : Nat
deriving DecidableEq

/-- The validation errors raised by _receiveStatus, in check order. -/
inductive FrameError where
  | badHeader
  | checksumMismatch
  | badPower
  | badMode
deriving DecidableEq

/-- The power-byte mapping of _receiveStatus: 0x23 is on, 0x24 is off,
anything else is impossible. -/
def powerOf (b : Nat) : Option Bool :=
  match b with
  | 0x23 => some true
  | 0x24 => some false
  | _ => none

/-- The mode-byte mapping of _receiveStatus: 0x62 is "other", 0x61 is
"static", 0x60 is "custom"; any other value is looked up among the
built-in function ids. -/
def modeName (modeByte : Nat) : Option String :=
  if modeByte = 0x62 then some "other"
  else if modeByte = 0x61 then some "static"
  else if modeByte = 0x60 then some "custom"
  else (builtinNameForId modeByte).map (fun name => "function:" ++ name)

/-- The frame validation and decoding performed by _receiveStatus once a
full 14-byte frame has been reassembled. Checks short-circuit in source
order: header, checksum (sum of the frame with the last byte zeroed, mod
0x100, compared to the stored last byte), power byte, mode byte.
The speed field is then populated from byte 5 only for "custom" mode
(custom flip of byte-minus-1) and for modes starting with "function"
(built-in flip), and bytes 6-9 become red, green, blue, white. -/
def decodeStatus (frame : List Nat) : Except FrameError UfoStatus :=
  let b := fun (i : Nat) => frame.getD i 0
  if b 0 ≠ statusHeader then .error .badHeader
  else
    let expectedChecksum := b (statusResponseSize - 1)
    let actualChecksum := ((frame.set (statusResponseSize - 1) 0).foldl (· + ·) 0) % 0x100
    if expectedChecksum ≠ actualChecksum then .error .checksumMismatch
    else
      match powerOf (b 2) with
      | none => .error .badPower
      | some pw =>
        match modeName (b 3) with
        | none => .error .badMode
        | some m =>
          let speed0 : Option Nat := none
          let speed1 := if m = "custom" then some (customFlipSpeed ((b 5 : Int) - 1)) else speed0
          let speed2 := if jsStartsWith m "function" then some (builtinFlipSpeed (b 5)) else speed1
          .ok { raw := frame, isOn := pw, mode := m, speed := speed2,
                red := b 6, green := b 7, blue := b 8, white := b 9 }

/- ===================== Custom steps (custom() of TcpClient.js) ===================== -/

/-- A custom function step (type CustomStep); JS numbers, so Int. -/
structure CustomStep where
  red : Int
  green : Int
  blue : Int
deriving DecidableEq

/-- The null-step sentinel (const nullStep = red 1, green 2, blue 3). -/
def nullStep : CustomStep := { red := 1, green := 2, blue := 3 }

/-- Function _isNullStep: field-wise comparison against the sentinel. -/
def isNullStep (step : CustomStep) : Bool :=
  step.red = nullStep.red && step.green = nullStep.green && step.blue = nullStep.blue

/-- The step-list normalization performed by custom(): drop every null
step, truncate to 16 (slice(0, maxCustomSteps)), then push the null step
until the list has 16 entries. -/
def normalizeSteps (steps : List CustomStep) : List CustomStep :=
  let stepsCopy := (steps.filter (fun s => ! isNullStep s)).take maxCustomSteps
  stepsCopy ++ List.replicate (maxCustomSteps - stepsCopy.length) nullStep

/-- The custom() mode validation: gradual 0x3A, jumping 0x3B, strobe 0x3C,
anything else is rejected before any write. -/
def customModeId (mode : String) : Option Nat :=
  match mode with
  | "gradual" => some 0x3A
  | "jumping" => some 0x3B
  | "strobe" => some 0x3C
  | _ => none

/-- The pre-checksum custom payload built by custom(): 0x51, then each
normalized step as 4 bytes (clamped red, green, blue, 0), then the flipped
speed plus 1, the mode id, and the 0xFF terminator. None when the mode is
invalid (custom() rejects without sending). -/
def customPayload (mode : String) (speed : Int) (steps : List CustomStep) : Option (List Nat) :=
  match customModeId mode with
  | none => none
  | some modeId =>
    some ([0x51]
      ++ (normalizeSteps steps).flatMap
           (fun step => [clampRGBW step.red, clampRGBW step.green, clampRGBW step.blue, 0])
      ++ [customFlipSpeed speed + 1, modeId, 0xFF])

/- ===================== TcpClient state machine (src/lufo-api/src/TcpClient.js) ===================== -/

/-- The connection-lifecycle state owned by a TcpClient: the dead flag, the
connect-failure flag, the last recorded socket error (field _error), the
cache option, and the status cache. The reassembly buffer is handled by
decodeStatus above and is not part of this state. -/
structure TcpState where
  dead : Bool
  connectFailed : Bool
  error : Option String
  cacheEnabled : Bool
  statusCache : Option UfoStatus
deriving DecidableEq

/-- The observable effect of a close notification (_closeSocket):
either nothing happens, or the socket is recreated and connect() is
issued again, or the client marks itself dead and notifies the owning
Ufo facade (_onTcpDead) with the recorded error. -/
inductive CloseAction where
  | noop
  | reconnect
  | die (error : Option String)
deriving DecidableEq

/-- Method _createSocket: resets the flags, the reassembly storage, the
status cache and the recorded error for a fresh socket. -/
def createSocketState (s : TcpState) : TcpState :=
  { s with dead := false, connectFailed := false, error := none, statusCache := none }

/-- Method _closeSocket, the close-notification handler: no-op if the
initial connect failed; otherwise reconnect (recreate the socket and call
connect()) exactly when the client is not dead and no error was recorded,
else mark the client dead and notify the facade with the recorded error. -/
def closeSocket (s : TcpState) : TcpState × CloseAction :=
  if s.connectFailed then (s, .noop)
  else
    let reconnect := !s.dead && s.error.isNone
    if reconnect then (createSocketState s, .reconnect)
    else ({ s with dead := true }, .die s.error)

/-- Method disconnect: no-op if already dead, otherwise set the dead flag,
half-close the socket and synthesize the close event (socket.emit close),
which runs _closeSocket on the updated state. -/
def disconnect (s : TcpState) : TcpState × CloseAction :=
  if s.dead then (s, .noop)
  else closeSocket { s with dead := true }

/-- Method _updateStatusCache: lodash set on the cache object, a no-op when
the cache is null. The field update is passed as a function. -/
def updateStatusCache (s : TcpState) (f : UfoStatus → UfoStatus) : TcpState :=
  match s.statusCache with
  | none => s
  | some c => { s with statusCache := some (f c) }

/-- Method _unsetStatusCache with no argument: clears the whole cache. -/
def unsetStatusCacheAll (s : TcpState) : TcpState :=
  { s with statusCache := none }

/-- Outcome of a control operation promise: resolved without touching the
socket (dead no-op), resolved after the given buffer was written and the
write completed, or rejected (with the buffer if one was written). -/
inductive OpRes where
  | resolvedNoWrite
  | resolvedAfterWrite (buf : List Nat)
  | rejected (buf : Option (List Nat))
deriving DecidableEq

/-- Method on(): resolve immediately when dead; otherwise write the fixed
powerOn buffer and, when the write completes, set the cached on field and
resolve. The writeOk argument says whether the write completed or the
socket died first (in which case the promise rejects and the cache is
untouched). -/
def opOn (s : TcpState) (writeOk : Bool) : TcpState × OpRes :=
  if s.dead then (s, .resolvedNoWrite)
  else if writeOk then
    (updateStatusCache s (fun c => { c with isOn := true }), .resolvedAfterWrite powerOn)
  else (s, .rejected (some powerOn))

/-- Method off(): like on() with the powerOff buffer and isOn false. -/
def opOff (s : TcpState) (writeOk : Bool) : TcpState × OpRes :=
  if s.dead then (s, .resolvedNoWrite)
  else if writeOk then
    (updateStatusCache s (fun c => { c with isOn := false }), .resolvedAfterWrite powerOff)
  else (s, .rejected (some powerOff))

/-- Method rgbw(red, green, blue, white): resolve immediately when dead;
otherwise build 0x31 r g b w 0x00 with each channel clamped, run it
through _prepareBytes, write it, and on completion update the cached raw,
mode ("static"), speed (unset), red, green, blue and white fields. -/
def opRgbw (s : TcpState) (writeOk : Bool) (red green blue white : Int) : TcpState × OpRes :=
  if s.dead then (s, .resolvedNoWrite)
  else
    let finalData := prepareBytes [0x31, clampRGBW red, clampRGBW green, clampRGBW blue, clampRGBW white, 0]
    if writeOk then
      (updateStatusCache s (fun c =>
        { c with raw := finalData, mode := "static", speed := none,
                 red := clampRGBW red, green := clampRGBW green,
                 blue := clampRGBW blue, white := clampRGBW white }),
       .resolvedAfterWrite finalData)
    else (s, .rejected (some finalData))

/-- Method builtin(name, speed): resolve immediately when dead; reject
without writing when the name is not in builtinFunctionMap; otherwise
write 0x61 id flippedSpeed through _prepareBytes and, on completion,
delete the entire status cache. -/
def opBuiltin (s : TcpState) (writeOk : Bool) (name : String) (speed : Int) : TcpState × OpRes :=
  if s.dead then (s, .resolvedNoWrite)
  else
    match builtinFunctionId name with
    | none => (s, .rejected none)
    | some functionId =>
      let buf := prepareBytes [0x61, functionId, builtinFlipSpeed speed]
      if writeOk then (unsetStatusCacheAll s, .resolvedAfterWrite buf)
      else (s, .rejected (some buf))

/-- Method custom(mode, speed, steps): resolve immediately when dead;
reject without writing on an invalid mode; otherwise write the prepared
custom payload and, on completion, delete the entire status cache. -/
def opCustom (s : TcpState) (writeOk : Bool) (mode : String) (speed : Int)
    (steps : List CustomStep) : TcpState × OpRes :=
  if s.dead then (s, .resolvedNoWrite)
  else
    match customPayload mode speed steps with
    | none => (s, .rejected none)
    | some payload =>
      let buf := prepareBytes payload
      if writeOk then (unsetStatusCacheAll s, .resolvedAfterWrite buf)
      else (s, .rejected (some buf))

/-- Outcome of a status(force) promise: resolved with null (dead), served
from the cache without socket traffic, resolved with a freshly read frame
(a socket write of the request plus a read), or rejected by a socket or
frame error. -/
inductive StatusRes where
  | resolvedNull
  | resolvedFromCache (st : UfoStatus)
  | resolvedFresh (st : UfoStatus)
  | rejected (e : String)
deriving DecidableEq

/-- Whether a status outcome involved socket traffic (the fresh write-read
round trip, successful or not). -/
def statusUsedSocket : StatusRes → Bool
  | .resolvedFresh _ => true
  | .rejected _ => true
  | _ => false

/-- The socket path of status(): resume reads, write the fixed request and
wait for the reassembled frame. The response argument is what the decode
of that exchange produced (an error covers both frame validation failures
and the socket dying first). On error the cache is cleared and the promise
rejects; on success the cache is replaced by the fresh frame. -/
def statusSocket (s : TcpState) (response : Except String UfoStatus) : TcpState × StatusRes :=
  match response with
  | .error e => ({ s with statusCache := none }, .rejected e)
  | .ok d => ({ s with statusCache := some d }, .resolvedFresh d)

/-- Method status(force): resolve null when dead; serve the cache without
any socket traffic when caching is enabled, force is false, a cached frame
exists and its mode is "static"; otherwise perform the socket round
trip. -/
def opStatus (s : TcpState) (force : Bool) (response : Except String UfoStatus) : TcpState × StatusRes :=
  if s.dead then (s, .resolvedNull)
  else
    match s.statusCache with
    | some cached =>
      if s.cacheEnabled && !force && cached.mode = "static" then (s, .resolvedFromCache cached)
      else statusSocket s response
    | none => statusSocket s response

/-- Iterated close notifications, for the unbounded-reconnect property. -/
def iterateClose (n : Nat) (s : TcpState) : TcpState :=
  match n with
  | 0 => s
  | n + 1 => iterateClose n (closeSocket s).1

/- ===================== UDP discovery and AT-command assembly (src/src/TcpCustoms.js) ===================== -/

/-- A JS value as far as the discover message handler needs one: a string
primitive or a Buffer object. -/
inductive JsVal where
  | str (s : List Char)
  | buf (b : List Nat)

/-- JS strict equality (the triple-equals operator) restricted to the
values discover compares: two strings compare by value; a string and a
Buffer have different types and are never strictly equal; two Buffers
compare by reference, and discover never compares a Buffer with itself,
so that case is false as well. -/
def jsStrictEq : JsVal → JsVal → Bool
  | .str a, .str b => a = b
  | _, _ => false

/-- Buffer.toString(utf8) as used on discovery datagrams, modelled for
single-byte (ASCII) content, which is all the protocol strings use. -/
def bytesToStr (bytes : List Nat) : List Char := bytes.map Char.ofNat

/-- Groups characters in pairs separated by colons: the replacement
regex that inserts a colon after every complete pair of characters. -/
def insertColonPairs : List Char → List Char
  | a :: b :: rest => a :: b :: ':' :: insertColonPairs rest
  | rest => rest

/-- Function normalizeMac: lower-case, strip dashes and colons, insert a
colon after every pair, and drop the final character (slice(0, -1)). -/
def normalizeMac (mac : List Char) : List Char :=
  let cleaned := (mac.map Char.toLower).filter (fun c => !(c = '-' || c = ':'))
  (insertColonPairs cleaned).dropLast

/-- A parsed discovery reply (ip, mac, model); the model field is the
third comma-separated part, which the source leaves undefined (none here)
when the reply has fewer than three parts. -/
structure HelloReply where
  ip : List Char
  mac : List Char
  model : Option (List Char)
deriving DecidableEq

/-- Function helloResponseParser: split the reply on commas and build the
ip, the normalized mac and the model. split always yields at least one
part, so the ip is defined; when there is no second part, normalizeMac is
called on undefined and toLowerCase throws a TypeError, modelled as none;
a missing third part does not throw, the model field is just undefined. -/
def parseHelloResponse (response : List Char) : Option HelloReply :=
  let parts := response.splitOn ','
  match parts.get? 1 with
  | none => none
  | some macPart =>
    some { ip := parts.getD 0 [], mac := normalizeMac macPart, model := parts.get? 2 }

/-- The asynchronous events a discovery socket can deliver. -/
inductive UdpEvent where
  | message (bytes : List Nat)
  | socketError (e : String)
  | timeoutFired

/-- Discovery session state: the captured error, the accumulated data
array, whether socket.close() has run, and whether an uncaught TypeError
escaped the message handler (which kills the event loop, so no callback
ever runs afterwards). -/
structure DiscoverState where
  error : Option String
  data : List HelloReply
  closed : Bool
  crashed : Bool
deriving DecidableEq

/-- One discovery event, from the handlers installed by discover():
a message is parsed and pushed when no error was captured and the decoded
string is not strictly equal to the hello Buffer (a comparison between a
string and a Buffer, hence always attempted); a reply the parser throws
on (no comma) crashes the session before the push, nothing appended; a
socket error captures the error, clears the timer and closes the socket;
the timeout closes the socket. After a close or a crash nothing further
happens. -/
def discoverStep (hello : List Nat) (s : DiscoverState) (ev : UdpEvent) : DiscoverState :=
  if s.crashed then s
  else if s.closed then s
  else
    match ev with
    | .message msg =>
      if s.error = none then
        if jsStrictEq (.str (bytesToStr msg)) (.buf hello) then s
        else
          match parseHelloResponse (bytesToStr msg) with
          | some reply => { s with data := s.data ++ [reply] }
          | none => { s with crashed := true }
      else s
    | .socketError e => { s with error := some e, closed := true }
    | .timeoutFired => { s with closed := true }

/-- The discovery session over a list of delivered events, starting from
the fresh state of discover(). -/
def runDiscover (hello : List Nat) (events : List UdpEvent) : DiscoverState :=
  events.foldl (discoverStep hello) { error := none, data := [], closed := false, crashed := false }

/-- Modelled from the spec: the promise-returning discover entry point is
not among the source files (only the callback-based core is); per the
spec, a socket error aborts discovery and surfaces the error, and
otherwise discovery resolves with the accumulated list. When the session
crashed on an uncaught parser TypeError the close callback never runs and
no outcome is ever delivered, hence none. -/
def discoverOutcome (hello : List Nat) (events : List UdpEvent) : Option (Except String (List HelloReply)) :=
  let s := runDiscover hello events
  if s.crashed then none
  else
    match s.error with
    | some e => some (.error e)
    | none => some (.ok s.data)

/-- The get/set parse role of a command spec, the value bound as this in
the recv closure: an array of field names, a single field-name string, or
nothing (command[mode] undefined, bound as false). -/
inductive ParseRole where
  | arrayRole
  | scalarRole
  | noRole
deriving DecidableEq

/-- JS whitespace test for trim, modelled for the ASCII whitespace the
protocol strings can contain. -/
def isJsSpace (c : Char) : Bool := c = ' ' || c = '\t' || c = '\n' || c = '\r'

/-- JS String.prototype.trim: strip leading and trailing whitespace. -/
def jsTrim (s : List Char) : List Char :=
  ((s.dropWhile isJsSpace).reverse.dropWhile isJsSpace).reverse

/-- The recv closure returned by assembleCommand for a non-literal
command, over the receive prefix and suffix constants (parameters here:
the UdpStrings module holding the opaque constants is not among the
source files). Note the third step: when the remainder ends with the
receive suffix the source keeps substring(0, length - recvPrefix.length),
that is, it drops as many characters as the receive PREFIX has. -/
def recvParse (pre suf : List Char) (role : ParseRole) (response : List Char) : List (List Char) :=
  let r1 := if pre.isPrefixOf response then response.drop pre.length else response
  let r2 := if ['='].isPrefixOf r1 then r1.drop 1 else r1
  let r3 := if suf.isSuffixOf r2 then r2.take (r2.length - pre.length) else r2
  let r4 := jsTrim r3
  if r4 = [] then []
  else
    match role with
    | .arrayRole => r4.splitOn ','
    | .scalarRole => [r4]
    | .noRole => []

/-- Modelled from the spec's words, for comparison with recvParse: the
decode function strips the receive prefix, a leading equals sign, and the
receive SUFFIX from the end, trims, and returns the empty list, the
comma-split remainder, a singleton, or the empty list according to the
parse role. -/
def specRecvParse (pre suf : List Char) (role : ParseRole) (response : List Char) : List (List Char) :=
  let r1 := if pre.isPrefixOf response then response.drop pre.length else response
  let r2 := if ['='].isPrefixOf r1 then r1.drop 1 else r1
  let r3 := if suf.isSuffixOf r2 then r2.take (r2.length - suf.length) else r2
  let r4 := jsTrim r3
  if r4 = [] then []
  else
    match role with
    | .arrayRole => r4.splitOn ','
    | .scalarRole => [r4]
    | .noRole => []

/- ===================== Helper lemmas ===================== -/

theorem filter_replicate_nullStep (n : Nat) :
    (List.replicate n nullStep).filter (fun s => ! isNullStep s) = [] := by
  induction n with
  | zero => rfl
  | succ n ih => simp [List.replicate_succ, List.filter_cons, ih, isNullStep, nullStep]

theorem disconnect_dead (s : TcpState) : ((disconnect s).1).dead = true := by
  simp only [disconnect, closeSocket, createSocketState]
  split_ifs <;> simp_all

theorem foldl_discoverStep_closed (hello : List Nat) (s : DiscoverState)
    (evs : List UdpEvent) (h : s.closed = true) :
    evs.foldl (discoverStep hello) s = s := by
  induction evs with
  | nil => rfl
  | cons e t ih =>
    have hstep : discoverStep hello s e = s := by simp [discoverStep, h]
    simp [List.foldl_cons, hstep, ih]

theorem foldl_discoverStep_error (hello : List Nat) (s : DiscoverState)
    (msgs : List (List Nat)) (e : String) (rest : List UdpEvent)
    (hc : s.closed = false) (he : s.error = none) (hcr : s.crashed = false)
    (hp : ∀ m ∈ msgs, (parseHelloResponse (bytesToStr m)).isSome = true) :
    (List.foldl (discoverStep hello) s
      (msgs.map UdpEvent.message ++ UdpEvent.socketError e :: rest)).error = some e
    ∧ (List.foldl (discoverStep hello) s
      (msgs.map UdpEvent.message ++ UdpEvent.socketError e :: rest)).crashed = false := by
  induction msgs generalizing s with
  | nil =>
    have hstep : discoverStep hello s (UdpEvent.socketError e) =
        { s with error := some e, closed := true } := by simp [discoverStep, hc, hcr]
    simp only [List.map_nil, List.nil_append, List.foldl_cons, hstep]
    rw [foldl_discoverStep_closed hello _ rest rfl]
    exact ⟨rfl, hcr⟩
  | cons m ms ih =>
    simp only [List.map_cons, List.cons_append, List.foldl_cons]
    obtain ⟨reply, hreply⟩ := Option.isSome_iff_exists.mp (hp m (by simp))
    have hstep : ((discoverStep hello s (UdpEvent.message m)).closed = false)
        ∧ ((discoverStep hello s (UdpEvent.message m)).error = none)
        ∧ ((discoverStep hello s (UdpEvent.message m)).crashed = false) := by
      simp only [discoverStep, hc, he, hcr, hreply]
      split_ifs <;> simp [hc, he, hcr]
    exact ih _ hstep.1 hstep.2.1 hstep.2.2 (fun x hx => hp x (by simp [hx]))

/- ===================== Claim theorems ===================== -/

/-- C4: for every caller-supplied custom step list, the normalized step
list written to the wire has length exactly 16, contains no null-step
sentinel before position min(16, number of non-sentinel input steps), and
preserves the relative order of the non-sentinel steps (its non-sentinel
elements are exactly the first 16 non-sentinel input steps in order). -/
theorem claim_c4_step_normalization (steps : List CustomStep) :
    (normalizeSteps steps).length = 16
    ∧ (∀ i : Nat, i < min 16 ((steps.filter (fun s => ! isNullStep s)).length) →
        (normalizeSteps steps).getD i nullStep ≠ nullStep)
    ∧ (normalizeSteps steps).filter (fun s => ! isNullStep s)
        = (steps.filter (fun s => ! isNullStep s)).take 16 := by
  unfold normalizeSteps maxCustomSteps
  refine ⟨?_, ?_, ?_⟩
  · simp only [List.length_append, List.length_take, List.length_replicate]
    omega
  · intro i hi
    have hi' : i < ((steps.filter (fun s => ! isNullStep s)).take 16).length := by
      simpa using hi
    rw [List.getD_append _ _ _ _ hi', List.getD_eq_getElem _ _ hi']
    intro hcontra
    have hmem := List.getElem_mem hi'
    rw [hcontra] at hmem
    have hmem' := List.mem_of_mem_take hmem
    have := List.of_mem_filter hmem'
    simp [isNullStep] at this
  · rw [List.filter_append]
    have h1 : ((steps.filter (fun s => ! isNullStep s)).take 16).filter (fun s => ! isNullStep s)
        = (steps.filter (fun s => ! isNullStep s)).take 16 := by
      refine List.filter_eq_self.mpr ?_
      intro a ha
      have ha' : a ∈ steps.filter (fun s => ! isNullStep s) := List.mem_of_mem_take ha
      exact (List.mem_filter.mp ha').2
    rw [h1, filter_replicate_nullStep, List.append_nil]

/-- C4 witness: the theorem evaluated on a concrete step list and index. -/
theorem claim_c4_step_normalization_witness :
    (0 < min 16 (([nullStep, ⟨9, 9, 9⟩, ⟨4, 5, 6⟩].filter (fun s => ! isNullStep s)).length))
    ∧ (normalizeSteps [nullStep, ⟨9, 9, 9⟩, ⟨4, 5, 6⟩]).length = 16
    ∧ (normalizeSteps [nullStep, ⟨9, 9, 9⟩, ⟨4, 5, 6⟩]).getD 0 nullStep ≠ nullStep := by
  refine ⟨by decide, (claim_c4_step_normalization _).1, ?_⟩
  exact (claim_c4_step_normalization [nullStep, ⟨9, 9, 9⟩, ⟨4, 5, 6⟩]).2.1 0 (by decide)

/-- C5: after disconnect() the channel is dead, and every subsequent on(),
off() or rgbw() call resolves with no socket write attempted, while
status() resolves with a null result and no socket traffic; the state is
left unchanged, so the same holds for every later call as well. -/
theorem claim_c5_dead_noop (s : TcpState) (writeOk force : Bool)
    (red green blue white : Int) (response : Except String UfoStatus) :
    opOn ((disconnect s).1) writeOk = ((disconnect s).1, .resolvedNoWrite)
    ∧ opOff ((disconnect s).1) writeOk = ((disconnect s).1, .resolvedNoWrite)
    ∧ opRgbw ((disconnect s).1) writeOk red green blue white = ((disconnect s).1, .resolvedNoWrite)
    ∧ opStatus ((disconnect s).1) force response = ((disconnect s).1, .resolvedNull) := by
  have hd := disconnect_dead s
  refine ⟨?_, ?_, ?_, ?_⟩ <;> simp [opOn, opOff, opRgbw, opStatus, hd]

/-- C10: when the status cache is empty at the moment an on(), off() or
rgbw() write completes, it stays empty (these operations never create a
cache entry), so the next status(force = false) on a live channel goes to
the socket even though an rgbw succeeded in between. -/
theorem claim_c10_cache_not_created (s : TcpState) (red green blue white : Int)
    (response : Except String UfoStatus) (h : s.statusCache = none) :
    ((opOn s true).1).statusCache = none
    ∧ ((opOff s true).1).statusCache = none
    ∧ ((opRgbw s true red green blue white).1).statusCache = none
    ∧ (s.dead = false →
        statusUsedSocket (opStatus ((opRgbw s true red green blue white).1) false response).2 = true) := by
  have hupd : ∀ f, updateStatusCache s f = s := by
    intro f
    simp [updateStatusCache, h]
  have hOn : ((opOn s true).1).statusCache = none := by
    by_cases hdead : s.dead <;> simp [opOn, hdead, hupd, h]
  have hOff : ((opOff s true).1).statusCache = none := by
    by_cases hdead : s.dead <;> simp [opOff, hdead, hupd, h]
  have hRgbw : ((opRgbw s true red green blue white).1).statusCache = none := by
    by_cases hdead : s.dead <;> simp [opRgbw, hdead, hupd, h]
  refine ⟨hOn, hOff, hRgbw, ?_⟩
  intro hdead
  have hr : (opRgbw s true red green blue white).1 = s := by
    simp [opRgbw, hdead, hupd]
  rw [hr]
  cases response <;> simp [opStatus, hdead, h, statusSocket, statusUsedSocket]

/-- C10 witness: the theorem evaluated at a concrete empty-cache state. -/
theorem claim_c10_cache_not_created_witness :
    ((opOn ⟨false, false, none, true, none⟩ true).1).statusCache = none
    ∧ ((opOff ⟨false, false, none, true, none⟩ true).1).statusCache = none
    ∧ ((opRgbw ⟨false, false, none, true, none⟩ true 10 20 30 40).1).statusCache = none
    ∧ ((⟨false, false, none, true, none⟩ : TcpState).dead = false →
        statusUsedSocket (opStatus ((opRgbw ⟨false, false, none, true, none⟩ true 10 20 30 40).1) false
          (.ok ⟨[], true, "other", none, 0, 0, 0, 0⟩)).2 = true) :=
  claim_c10_cache_not_created ⟨false, false, none, true, none⟩ 10 20 30 40
    (.ok ⟨[], true, "other", none, 0, 0, 0, 0⟩) rfl

/-- C8 counterexample: with a one-character receive prefix and a
two-character receive suffix, the source decode keeps one character of
the suffix (it drops prefix-length characters from the end), so it does
not strip the receive suffix as the claim states. -/
theorem claim_c8_counterexample :
    recvParse ['P'] ['S', 'S'] .scalarRole ("P=abSS".data) = [['a', 'b', 'S']]
    ∧ specRecvParse ['P'] ['S', 'S'] .scalarRole ("P=abSS".data) = [['a', 'b']]
    ∧ recvParse ['P'] ['S', 'S'] .scalarRole ("P=abSS".data)
      ≠ specRecvParse ['P'] ['S', 'S'] .scalarRole ("P=abSS".data) := by
  refine ⟨by decide, by decide, by decide⟩

/-- C8 amended: the decode function strips the receive prefix, a leading
equals sign, and then drops from the end a number of characters equal to
the receive PREFIX length whenever the remainder ends with the receive
suffix; whenever the receive prefix and suffix have equal lengths this
coincides with stripping the suffix, and the role handling (empty, array
comma-split, scalar singleton, none) is exactly as specified. -/
theorem claim_c8_amended (pre suf : List Char) (role : ParseRole) (response : List Char)
    (h : pre.length = suf.length) :
    recvParse pre suf role response = specRecvParse pre suf role response := by
  simp only [recvParse, specRecvParse, h]

/-- C8 witness: equal-length prefix and suffix on a concrete response. -/
theorem claim_c8_amended_witness :
    recvParse ['+', 'o', 'k'] ['e', 'n', 'd'] .arrayRole ("+ok=1,2end".data)
      = specRecvParse ['+', 'o', 'k'] ['e', 'n', 'd'] .arrayRole ("+ok=1,2end".data) :=
  claim_c8_amended ['+', 'o', 'k'] ['e', 'n', 'd'] .arrayRole ("+ok=1,2end".data) (by decide)

/-- C6: the discovery message handler never ignores the socket's
observation of its own broadcast. The comparison in the source is between
the decoded string and the hello Buffer, which are never strictly equal,
so a datagram byte-identical to the outbound hello is always handed to
the parser: the echoed comma-free hello bytes 104 105 ("hi") make the
parser throw a TypeError inside normalizeMac, crashing the session before
the close callback can run (no outcome is ever delivered), and an echoed
hello with a comma, bytes 97 44 98 ("a,b"), is parsed and appended to the
discovery results. Either way the echo is not ignored as claimed. -/
theorem claim_c6_echo_not_ignored :
    (runDiscover [104, 105] [UdpEvent.message [104, 105]]).crashed = true
    ∧ (runDiscover [104, 105] [UdpEvent.message [104, 105]]).data = []
    ∧ discoverOutcome [104, 105] [UdpEvent.message [104, 105], UdpEvent.timeoutFired] = none
    ∧ (runDiscover [97, 44, 98] [UdpEvent.message [97, 44, 98], UdpEvent.timeoutFired]).data
        = [{ ip := ['a'], mac := [], model := none }]
    ∧ discoverOutcome [97, 44, 98] [UdpEvent.message [97, 44, 98], UdpEvent.timeoutFired]
        = some (.ok [{ ip := ['a'], mac := [], model := none }])
    ∧ bytesToStr [104, 105] = "hi".data := by
  exact ⟨by decide, by decide, rfl, by decide, rfl, by decide⟩

/-- C7: if the discovery socket reports an error before the timeout
fires, after any number of replies the message handler survives (replies
with at least one comma, so the parser does not throw), discovery aborts
(later events are ignored) and surfaces exactly that error to the caller;
the partial results accumulated before the error are discarded, the
delivered outcome carrying the error alone. -/
theorem claim_c7_error_discards_partials (hello : List Nat) (msgs : List (List Nat))
    (e : String) (rest : List UdpEvent)
    (hp : ∀ m ∈ msgs, (parseHelloResponse (bytesToStr m)).isSome = true) :
    discoverOutcome hello (msgs.map UdpEvent.message ++ UdpEvent.socketError e :: rest)
      = some (.error e) := by
  unfold discoverOutcome runDiscover
  have herr := foldl_discoverStep_error hello
    { error := none, data := [], closed := false, crashed := false } msgs e rest rfl rfl rfl hp
  simp only [herr.1, herr.2]
  rfl

/-- C7 witness: a concrete parseable reply followed by a socket error. -/
theorem claim_c7_error_discards_partials_witness :
    discoverOutcome [104, 105]
      ([[97, 44, 98]].map UdpEvent.message ++ UdpEvent.socketError "boom" :: [])
      = some (.error "boom") :=
  claim_c7_error_discards_partials [104, 105] [[97, 44, 98]] "boom" [] (by decide)

/-- C2 counterexample: the round trip does not succeed for an arbitrary
payload; a 12-byte all-zero payload is encoded fine but its decode fails
the header check, so decoding does not succeed as the claim states. -/
theorem claim_c2_counterexample :
    decodeStatus (prepareBytes (List.replicate 12 0)) = .error .badHeader
    ∧ (List.replicate 12 0).length = 12 := by
  exact ⟨rfl, by decide⟩

/-- C2 amended: the checksum appended by the command encoder always
verifies (no encoded 12-byte payload can decode to a checksum mismatch),
and for every 12-byte payload whose header, power and mode bytes are
valid, decoding the encoder's output succeeds and the first 12 bytes of
the decoded raw frame are exactly the original payload (the appended flag
and checksum bytes ignored). -/
theorem claim_c2_amended :
    (∀ b0 b1 b2 b3 b4 b5 b6 b7 b8 b9 b10 b11 : Nat,
      decodeStatus (prepareBytes [b0, b1, b2, b3, b4, b5, b6, b7, b8, b9, b10, b11])
        ≠ .error .checksumMismatch)
    ∧ (∀ b1 b2 b3 b4 b5 b6 b7 b8 b9 b10 b11 : Nat,
        (b2 = 0x23 ∨ b2 = 0x24) → (modeName b3).isSome = true →
        ∃ st, decodeStatus (prepareBytes [statusHeader, b1, b2, b3, b4, b5, b6, b7, b8, b9, b10, b11]) = .ok st
          ∧ st.raw.take 12 = [statusHeader, b1, b2, b3, b4, b5, b6, b7, b8, b9, b10, b11]) := by
  constructor
  · intro b0 b1 b2 b3 b4 b5 b6 b7 b8 b9 b10 b11
    simp only [decodeStatus, prepareBytes, statusHeader, statusResponseSize]
    simp only [List.cons_append, List.nil_append, List.foldl_cons, List.foldl_nil,
      List.set_cons_succ, List.set_cons_zero, List.getD_cons_succ, List.getD_cons_zero]
    split_ifs with h1 h2
    · simp
    · exact absurd rfl h2
    · cases hp : powerOf b2 with
      | none => simp
      | some pw =>
        cases hm : modeName b3 with
        | none => simp
        | some m => simp
  · intro b1 b2 b3 b4 b5 b6 b7 b8 b9 b10 b11 hp hm
    obtain ⟨m, hm'⟩ := Option.isSome_iff_exists.mp hm
    simp only [decodeStatus, prepareBytes, statusHeader, statusResponseSize]
    simp only [List.cons_append, List.nil_append, List.foldl_cons, List.foldl_nil,
      List.set_cons_succ, List.set_cons_zero, List.getD_cons_succ, List.getD_cons_zero]
    have hhdr : ¬(129 ≠ 129) := by omega
    rw [if_neg hhdr]
    have hchk : ¬((0 + 129 + b1 + b2 + b3 + b4 + b5 + b6 + b7 + b8 + b9 + b10 + b11 + 15 + 0) % 256
        ≠ (0 + 129 + b1 + b2 + b3 + b4 + b5 + b6 + b7 + b8 + b9 + b10 + b11 + 15 + 0) % 256) := by
      omega
    rw [if_neg hchk]
    rcases hp with rfl | rfl <;>
      simp only [powerOf, hm'] <;>
      exact ⟨_, rfl, by simp⟩

/-- C2 witness: the amended round trip on a concrete valid payload. -/
theorem claim_c2_amended_witness :
    ∃ st, decodeStatus (prepareBytes [statusHeader, 4, 0x23, 0x61, 0x21, 0, 255, 128, 0, 7, 3, 0]) = .ok st
      ∧ st.raw.take 12 = [statusHeader, 4, 0x23, 0x61, 0x21, 0, 255, 128, 0, 7, 3, 0] :=
  claim_c2_amended.2 4 0x23 0x61 0x21 0 255 128 0 7 3 0 (Or.inl rfl) (by decide)

theorem functionPrefix_starts (k : String) :
    jsStartsWith ("function:" ++ k) "function" = true ∧
    jsStartsWith ("function:" ++ k) "function:" = true := by
  have hd9 : "function:".data = ['f', 'u', 'n', 'c', 't', 'i', 'o', 'n', ':'] := by decide
  have hd8 : "function".data = ['f', 'u', 'n', 'c', 't', 'i', 'o', 'n'] := by decide
  constructor
  · unfold jsStartsWith
    rw [String.data_append, hd9, List.isPrefixOf_iff_prefix]
    exact ⟨':' :: k.data, by rw [hd8]; simp⟩
  · unfold jsStartsWith
    rw [String.data_append, hd9, List.isPrefixOf_iff_prefix]
    exact ⟨k.data, rfl⟩

theorem functionPrefix_ne (k : String) :
    ("function:" ++ k) ≠ "custom" ∧ ("function:" ++ k) ≠ "static" ∧ ("function:" ++ k) ≠ "other" := by
  have hd9 : "function:".data = ['f', 'u', 'n', 'c', 't', 'i', 'o', 'n', ':'] := by decide
  refine ⟨?_, ?_, ?_⟩ <;>
  · intro h
    have hdata := congrArg String.data h
    rw [String.data_append, hd9] at hdata
    simp at hdata

theorem modeName_cases (n : Nat) (m : String) (h : modeName n = some m) :
    m = "other" ∨ m = "static" ∨ m = "custom" ∨ ∃ k, m = "function:" ++ k := by
  unfold modeName at h
  split_ifs at h with h1 h2 h3
  · exact Or.inl (Option.some.inj h).symm
  · exact Or.inr (Or.inl (Option.some.inj h).symm)
  · exact Or.inr (Or.inr (Or.inl (Option.some.inj h).symm))
  · cases hb : builtinNameForId n with
    | none => rw [hb] at h; simp at h
    | some k =>
      rw [hb] at h
      simp only [Option.map_some'] at h
      exact Or.inr (Or.inr (Or.inr ⟨k, (Option.some.inj h).symm⟩))

/-- C9: every status frame accepted by the decoder has its speed defined
if and only if its mode is "custom" or begins with "function:"; for modes
"static" and "other" the speed is absent; when present it is the custom
inverse speed transform of byte 5 minus 1 for "custom" mode, and the
built-in inverse speed transform of byte 5 for "function:" modes. -/
theorem claim_c9_speed_presence (frame : List Nat) (st : UfoStatus)
    (h : decodeStatus frame = .ok st) :
    (st.speed.isSome = true ↔ (st.mode = "custom" ∨ jsStartsWith st.mode "function:" = true))
    ∧ ((st.mode = "static" ∨ st.mode = "other") → st.speed = none)
    ∧ (st.mode = "custom" → st.speed = some (customFlipSpeed ((frame.getD 5 0 : Int) - 1)))
    ∧ (jsStartsWith st.mode "function:" = true → st.speed = some (builtinFlipSpeed (frame.getD 5 0))) := by
  simp only [decodeStatus] at h
  split_ifs at h
  cases hpow : powerOf (frame.getD 2 0) with
  | none => rw [hpow] at h; simp at h
  | some pw =>
    rw [hpow] at h
    cases hm : modeName (frame.getD 3 0) with
    | none => rw [hm] at h; simp at h
    | some m =>
      rw [hm] at h
      simp only [Except.ok.injEq] at h
      subst h
      rcases modeName_cases _ _ hm with rfl | rfl | rfl | ⟨k, rfl⟩
      · refine ⟨?_, ?_, ?_, ?_⟩ <;> simp [jsStartsWith]
      · refine ⟨?_, ?_, ?_, ?_⟩ <;> simp [jsStartsWith]
      · refine ⟨?_, ?_, ?_, ?_⟩ <;> simp [jsStartsWith]
      · have hs := functionPrefix_starts k
        have hn := functionPrefix_ne k
        refine ⟨?_, ?_, ?_, ?_⟩
        · simp only [hs.1, if_true]
          constructor
          · intro _
            exact Or.inr hs.2
          · intro _
            simp
        · intro hcontra
          rcases hcontra with hc | hc
          · exact absurd hc hn.2.1
          · exact absurd hc hn.2.2
        · intro hc
          exact absurd hc hn.1
        · intro _
          simp only [hs.1, if_true]

/-- C9 witness: the decoder evaluated on a concrete valid static frame. -/
theorem claim_c9_speed_presence_witness :
    (let st : UfoStatus := ⟨[129, 4, 35, 97, 33, 0, 255, 128, 0, 7, 3, 0, 15, 194], true, "static", none, 255, 128, 0, 7⟩
     (st.speed.isSome = true ↔ (st.mode = "custom" ∨ jsStartsWith st.mode "function:" = true))
     ∧ ((st.mode = "static" ∨ st.mode = "other") → st.speed = none)
     ∧ (st.mode = "custom" →
         st.speed = some (customFlipSpeed ((([129, 4, 35, 97, 33, 0, 255, 128, 0, 7, 3, 0, 15, 194] : List Nat).getD 5 0 : Int) - 1)))
     ∧ (jsStartsWith st.mode "function:" = true →
         st.speed = some (builtinFlipSpeed (([129, 4, 35, 97, 33, 0, 255, 128, 0, 7, 3, 0, 15, 194] : List Nat).getD 5 0)))) := by
  exact claim_c9_speed_presence [129, 4, 35, 97, 33, 0, 255, 128, 0, 7, 3, 0, 15, 194]
    ⟨[129, 4, 35, 97, 33, 0, 255, 128, 0, 7, 3, 0, 15, 194], true, "static", none, 255, 128, 0, 7⟩ rfl

theorem iterateClose_alive (n : Nat) (s : TcpState) (h1 : s.connectFailed = false)
    (h2 : s.dead = false) (h3 : s.error = none) :
    (iterateClose n s).dead = false ∧ (iterateClose n s).error = none
      ∧ (iterateClose n s).connectFailed = false := by
  induction n generalizing s with
  | zero => exact ⟨h2, h3, h1⟩
  | succ n ih =>
    have hstep : (closeSocket s).1 = createSocketState s := by
      simp [closeSocket, h1, h2, h3]
    simp only [iterateClose, hstep]
    exact ih _ (by simp [createSocketState]) (by simp [createSocketState]) (by simp [createSocketState])

/-- C1 counterexample: a close notification that follows a failed initial
connect() arrives with the channel not marked Dead and no transport error
recorded in the error slot, yet the handler no-ops: it neither recreates
the socket nor issues connect(), contradicting the claim as stated. -/
theorem claim_c1_counterexample :
    (⟨false, true, none, true, none⟩ : TcpState).dead = false
    ∧ (⟨false, true, none, true, none⟩ : TcpState).error = none
    ∧ (closeSocket ⟨false, true, none, true, none⟩).2 ≠ CloseAction.reconnect
    ∧ (closeSocket ⟨false, true, none, true, none⟩).2 = CloseAction.noop := by
  decide

/-- C1 amended: provided the close is not the aftermath of a failed
initial connect() (in that case the handler no-ops entirely), a close with
the channel alive and no recorded error recreates the socket and issues
connect() again, leaving the channel not Dead, and this reconnection is
unbounded (any number of such closes keeps the channel alive and still
reconnecting); a close after an error was recorded, or after the channel
was already marked Dead by disconnect(), performs no reconnect, ends in
the Dead state, and notifies the owning facade with the recorded error,
and disconnect() itself ends Dead notifying with the recorded error. -/
theorem claim_c1_amended (s : TcpState) (h : s.connectFailed = false) :
    (s.dead = false → s.error = none →
      closeSocket s = (createSocketState s, .reconnect)
      ∧ ((closeSocket s).1).dead = false)
    ∧ ((s.dead = true ∨ s.error.isSome = true) →
      closeSocket s = ({ s with dead := true }, .die s.error))
    ∧ (s.dead = false → disconnect s = ({ s with dead := true }, .die s.error))
    ∧ (∀ n : Nat, s.dead = false → s.error = none →
      (iterateClose n s).dead = false ∧ (closeSocket (iterateClose n s)).2 = .reconnect) := by
  refine ⟨?_, ?_, ?_, ?_⟩
  · intro h2 h3
    constructor
    · simp [closeSocket, h, h2, h3]
    · simp [closeSocket, h, h2, h3, createSocketState]
  · intro hcase
    rcases hcase with h2 | h3
    · simp [closeSocket, h, h2]
    · have : s.error.isNone = false := by
        cases he : s.error
        · rw [he] at h3; simp at h3
        · simp
      simp [closeSocket, h, this]
  · intro h2
    simp [disconnect, h2, closeSocket, h]
  · intro n h2 h3
    have halive := iterateClose_alive n s h h2 h3
    refine ⟨halive.1, ?_⟩
    simp [closeSocket, halive.1, halive.2.1, halive.2.2]

/-- C1 witness: the amended close behavior at a concrete alive state. -/
theorem claim_c1_amended_witness :
    closeSocket ⟨false, false, none, true, none⟩
      = (createSocketState ⟨false, false, none, true, none⟩, .reconnect) :=
  ((claim_c1_amended ⟨false, false, none, true, none⟩ rfl).1 rfl rfl).1

/-- C3 counterexample: with caching enabled, on a live channel whose cache
was cleared by a successful builtin call, a subsequent rgbw(10,20,30,40)
resolves successfully but cannot repopulate the empty cache, so the next
status(force = false) performs a socket round trip, contradicting the
claim that it is served without any socket write or read. -/
theorem claim_c3_counterexample :
    (⟨false, false, none, true, some ⟨[], true, "static", none, 1, 1, 1, 1⟩⟩ : TcpState).cacheEnabled = true
    ∧ (opBuiltin ⟨false, false, none, true, some ⟨[], true, "static", none, 1, 1, 1, 1⟩⟩ true "redGradualChange" 50).2
        = .resolvedAfterWrite (prepareBytes [0x61, 0x26, 50])
    ∧ (opRgbw (opBuiltin ⟨false, false, none, true, some ⟨[], true, "static", none, 1, 1, 1, 1⟩⟩ true "redGradualChange" 50).1
        true 10 20 30 40).2
        = .resolvedAfterWrite (prepareBytes [0x31, 10, 20, 30, 40, 0])
    ∧ statusUsedSocket (opStatus
        ((opRgbw (opBuiltin ⟨false, false, none, true, some ⟨[], true, "static", none, 1, 1, 1, 1⟩⟩ true "redGradualChange" 50).1
          true 10 20 30 40).1)
        false (.ok ⟨[], true, "other", none, 0, 0, 0, 0⟩)).2 = true := by
  decide

/-- C3 amended: with caching enabled, on a live channel that holds a
cached status when the rgbw(10,20,30,40) write completes, the rgbw call
resolves successfully and a subsequent status(force = false) is served
from the cache (no socket traffic) with mode "static" and red 10,
green 20, blue 30, white 40; and after any successful builtin invocation
the cache is fully cleared, so a subsequent status(force = false) on a
live channel always performs a fresh socket round trip. -/
theorem claim_c3_amended (s : TcpState) (c : UfoStatus) (response : Except String UfoStatus)
    (hdead : s.dead = false) (hc : s.cacheEnabled = true) (hcache : s.statusCache = some c) :
    (opRgbw s true 10 20 30 40).2 = .resolvedAfterWrite (prepareBytes [0x31, 10, 20, 30, 40, 0])
    ∧ opStatus ((opRgbw s true 10 20 30 40).1) false response
      = ((opRgbw s true 10 20 30 40).1,
         .resolvedFromCache { c with raw := prepareBytes [0x31, 10, 20, 30, 40, 0],
                                     mode := "static", speed := none,
                                     red := 10, green := 20, blue := 30, white := 40 })
    ∧ statusUsedSocket (opStatus ((opRgbw s true 10 20 30 40).1) false response).2 = false
    ∧ (∀ (s2 : TcpState) (name : String) (speed : Int) (id : Nat)
        (response2 : Except String UfoStatus),
        s2.dead = false → builtinFunctionId name = some id →
        ((opBuiltin s2 true name speed).1).statusCache = none
        ∧ statusUsedSocket (opStatus ((opBuiltin s2 true name speed).1) false response2).2 = true) := by
  have h10 : clampRGBW 10 = 10 := by decide
  have h20 : clampRGBW 20 = 20 := by decide
  have h30 : clampRGBW 30 = 30 := by decide
  have h40 : clampRGBW 40 = 40 := by decide
  have h0 : clampRGBW 0 = 0 := by decide
  have hrgbw : opRgbw s true 10 20 30 40
      = ({ s with statusCache := some { c with raw := prepareBytes [0x31, 10, 20, 30, 40, 0],
                                               mode := "static", speed := none,
                                               red := 10, green := 20, blue := 30, white := 40 } },
         .resolvedAfterWrite (prepareBytes [0x31, 10, 20, 30, 40, 0])) := by
    simp [opRgbw, hdead, updateStatusCache, hcache, h10, h20, h30, h40]
  refine ⟨?_, ?_, ?_, ?_⟩
  · rw [hrgbw]
  · rw [hrgbw]
    simp [opStatus, hdead, hc]
  · rw [hrgbw]
    simp [opStatus, hdead, hc, statusUsedSocket]
  · intro s2 name speed id response2 hdead2 hid
    have hb : opBuiltin s2 true name speed
        = (unsetStatusCacheAll s2, .resolvedAfterWrite (prepareBytes [0x61, id, builtinFlipSpeed speed])) := by
      simp [opBuiltin, hdead2, hid]
    rw [hb]
    refine ⟨by simp [unsetStatusCacheAll], ?_⟩
    cases response2 <;>
      simp [opStatus, statusSocket, statusUsedSocket, unsetStatusCacheAll, hdead2]

/-- C3 witness: the amended cache behavior at a concrete state. -/
theorem claim_c3_amended_witness :
    (opRgbw ⟨false, false, none, true, some ⟨[], true, "static", none, 1, 1, 1, 1⟩⟩ true 10 20 30 40).2
      = .resolvedAfterWrite (prepareBytes [0x31, 10, 20, 30, 40, 0])
    ∧ ((opBuiltin ⟨false, false, none, true, some ⟨[], true, "static", none, 1, 1, 1, 1⟩⟩ true "redGradualChange" 50).1).statusCache = none :=
  ⟨(claim_c3_amended ⟨false, false, none, true, some ⟨[], true, "static", none, 1, 1, 1, 1⟩⟩
      ⟨[], true, "static", none, 1, 1, 1, 1⟩ (.ok ⟨[], true, "other", none, 0, 0, 0, 0⟩)
      rfl rfl rfl).1,
   ((claim_c3_amended ⟨false, false, none, true, some ⟨[], true, "static", none, 1, 1, 1, 1⟩⟩
      ⟨[], true, "static", none, 1, 1, 1, 1⟩ (.ok ⟨[], true, "other", none, 0, 0, 0, 0⟩)
      rfl rfl rfl).2.2.2
    ⟨false, false, none, true, some ⟨[], true, "static", none, 1, 1, 1, 1⟩⟩
    "redGradualChange" 50 0x26 (.ok ⟨[], true, "other", none, 0, 0, 0, 0⟩) rfl (by decide)).1⟩
